import Mathlib

/-
Verification development for the alchemy Cloudflare/PlanetScale resource
handlers.  The resource handlers (AiSearch, AiSearchToken, D1Database,
VpcService, DefaultRole) and the helper functions (AiCrawler, the provider
delete/read/update helpers) are embedded shallowly: network calls are
abstracted by provider oracles holding the response of each remote endpoint,
and every handler is a pure function from scope context, provider oracle,
props, phase and prior output to the list of provider calls it issues plus
its outcome.  The engine primitives replace and destroy are modelled as
terminal outcomes, following the engine contract that replace aborts the
handler with a non-local exit.
-/

namespace Alchemy

deriving instance DecidableEq for Except

/-! ## JavaScript string primitives used by the handlers -/

/-- Finds the first occurrence of the pattern in the list and splits around
it, returning the part before the pattern and the part after it.  Models the
substring search used by the JS String.includes and URL parsing. -/
def listSplitFirst (pat : List Char) : List Char → Option (List Char × List Char)
  | [] => if pat = [] then some ([], []) else none
  | c :: rest =>
    if pat.isPrefixOf (c :: rest) then some ([], (c :: rest).drop pat.length)
    else
      match listSplitFirst pat rest with
      | some (pre, post) => some (c :: pre, post)
      | none => none

/-- Models the JS expression s.includes(pat). -/
def strContainsStr (s pat : String) : Bool :=
  (listSplitFirst pat.data s.data).isSome

/-- Models s.slice(0, n) / truncation to n characters. -/
def strTake (s : String) (n : Nat) : String :=
  String.mk (s.data.take n)

/-- Lowercases an ASCII character, as the WHATWG URL host parser does. -/
def lowerChar (c : Char) : Char :=
  if 65 ≤ c.toNat && c.toNat ≤ 90 then Char.ofNat (c.toNat + 32) else c

/-- Lowercases a character list. -/
def lowerStr (l : List Char) : List Char :=
  l.map lowerChar

/-- Splits a character list at every occurrence of the separator. -/
def splitOnChar (sep : Char) : List Char → List (List Char)
  | [] => [[]]
  | c :: rest =>
    let tail := splitOnChar sep rest
    if c = sep then [] :: tail
    else
      match tail with
      | h :: t => (c :: h) :: t
      | [] => [[c]]

/-- Hexadecimal digit test, both cases, as in the UUID regex of
validateTokenId in ai-search.ts. -/
def isHexChar (c : Char) : Bool :=
  c.isDigit || (('a' ≤ c) && (c ≤ 'f')) || (('A' ≤ c) && (c ≤ 'F'))

/-- Models the UUID regex of validateTokenId in ai-search.ts: five groups of
hex digits of lengths 8-4-4-4-12 joined by hyphens, case insensitive. -/
def isUuid (s : String) : Bool :=
  let parts := splitOnChar '-' s.data
  parts.length == 5 &&
  ((parts.map (fun p => p.length)) == [8, 4, 4, 4, 12]) &&
  parts.all (fun p => p.all isHexChar)

/-! ## Cloudflare API error model (api-error.ts) -/

/-- One entry of the errors array of a Cloudflare API error payload. -/
structure CloudflareErrorItem where
  code : Nat
deriving DecidableEq

/-- A thrown JS error: either a CloudflareApiError carrying the HTTP status,
message and error payload, or any other Error carrying only a message. -/
inductive JsError where
  | cfApi (status : Nat) (message : String) (errorData : List CloudflareErrorItem)
  | generic (message : String)
deriving DecidableEq

/-- Models isCloudflareApiError with a status match: the error is a
CloudflareApiError and its status equals the given one (api-error.ts). -/
def isCloudflareApiErrorStatus (e : JsError) (status : Nat) : Bool :=
  match e with
  | .cfApi s _ _ => s == status
  | .generic _ => false

/-- Models isCloudflareApiError with a code match: the error is a
CloudflareApiError and some entry of errorData has the given code. -/
def isCloudflareApiErrorCode (e : JsError) (code : Nat) : Bool :=
  match e with
  | .cfApi _ _ dat => dat.any (fun d => d.code == code)
  | .generic _ => false

/-- Models a bare instanceof CloudflareApiError test. -/
def isCloudflareApiErrorAny (e : JsError) : Bool :=
  match e with
  | .cfApi _ _ _ => true
  | .generic _ => false

/-! ## Provider delete/read/update helpers (claim C4)

Each helper takes the result of the underlying extractCloudflareResult call
(the network being abstracted) and applies the error handling of the source
function. -/

/-- Embeds deleteAiSearchInstance (ai-search.ts): a CloudflareApiError with
status 404 is swallowed, every other error is rethrown. -/
def deleteAiSearchInstance (apiResult : Except JsError Unit) : Except JsError Unit :=
  match apiResult with
  | .ok _ => .ok ()
  | .error e => if isCloudflareApiErrorStatus e 404 then .ok () else .error e

/-- Embeds deleteAiSearchToken (ai-search-token.ts): same 404 handling. -/
def deleteAiSearchToken (apiResult : Except JsError Unit) : Except JsError Unit :=
  match apiResult with
  | .ok _ => .ok ()
  | .error e => if isCloudflareApiErrorStatus e 404 then .ok () else .error e

/-- Embeds deleteService (vpc-service.ts): errors that are not Cloudflare API
errors with status 404 are rethrown, a 404 is swallowed. -/
def deleteService (apiResult : Except JsError Unit) : Except JsError Unit :=
  match apiResult with
  | .ok _ => .ok ()
  | .error e => if isCloudflareApiErrorStatus e 404 then .ok () else .error e

/-- Embeds deleteDatabase (the D1 resource file): same 404 handling. -/
def deleteDatabase (apiResult : Except JsError Unit) : Except JsError Unit :=
  match apiResult with
  | .ok _ => .ok ()
  | .error e => if isCloudflareApiErrorStatus e 404 then .ok () else .error e

/-- Abstract instance data returned by the AI Search API (the fields the
handler reads back). -/
structure AiInstance where
  id : String
  vectorizeName : String
  source : String
  type : String
deriving DecidableEq

/-- Embeds getAiSearchInstance: plain pass-through of the extracted result,
with no catch clause, so every error propagates. -/
def getAiSearchInstance (r : Except JsError AiInstance) : Except JsError AiInstance := r

/-- Embeds updateAiSearchInstance: pass-through, no catch clause. -/
def updateAiSearchInstance (r : Except JsError AiInstance) : Except JsError AiInstance := r

/-- A D1 database row as returned by the Cloudflare D1 API (the fields the
handler reads). -/
structure D1Row where
  uuid : String
  name : String
deriving DecidableEq

/-- Embeds getDatabase: pass-through, no catch clause. -/
def getDatabase (r : Except JsError D1Row) : Except JsError D1Row := r

/-- Embeds updateReadReplicationMode: pass-through, no catch clause. -/
def updateReadReplicationMode (r : Except JsError D1Row) : Except JsError D1Row := r

/-- A connectivity (VPC) service row (the fields the handler reads). -/
structure VpcRow where
  serviceId : String
  name : String
deriving DecidableEq

/-- Embeds getService: pass-through, no catch clause. -/
def getService (r : Except JsError VpcRow) : Except JsError VpcRow := r

/-- Embeds updateService: pass-through, no catch clause. -/
def updateService (r : Except JsError VpcRow) : Except JsError VpcRow := r

/-- Embeds getAiSearchToken: pass-through, no catch clause. -/
def getAiSearchToken (r : Except JsError String) : Except JsError String := r

/-! ## Declared-properties field lists (claims C2 and C6)

Transcriptions of the property names declared by each props interface, in
source order.  BaseAiSearchProps, AiSearchTokenProps, D1DatabaseProps and
VpcServiceProps additionally extend CloudflareApiOptions, and
DefaultRoleProps extends PlanetScaleProps; only the own declared fields are
listed. -/

/-- Field names of interface BaseAiSearchProps (ai-search.ts). -/
def BaseAiSearchPropsFields : List String :=
  ["name", "source", "aiSearchModel", "embeddingModel", "chunk", "chunkSize",
   "chunkOverlap", "maxNumResults", "scoreThreshold", "reranking",
   "rerankingModel", "rewriteQuery", "rewriteModel", "cache", "cacheThreshold",
   "metadata", "indexOnCreate", "delete", "adopt"]

/-- Field names of interface AiSearchTokenProps (ai-search-token.ts). -/
def AiSearchTokenPropsFields : List String :=
  ["name", "adopt", "delete"]

/-- Field names of interface D1DatabaseProps. -/
def D1DatabasePropsFields : List String :=
  ["name", "primaryLocationHint", "readReplication", "delete", "adopt",
   "clone", "importFiles", "migrationsTable", "migrationsDir", "dev",
   "jurisdiction"]

/-- Field names of interface VpcServiceProps (vpc-service.ts). -/
def VpcServicePropsFields : List String :=
  ["name", "serviceType", "tcpPort", "appProtocol", "httpPort", "httpsPort",
   "host", "adopt"]

/-- Field names of interface DefaultRoleProps (the PlanetScale default-role
file). -/
def DefaultRolePropsFields : List String :=
  ["organization", "database", "branch", "forceReset"]

/-! ## Engine context model -/

/-- Lifecycle phase of a resource invocation. -/
inductive Phase where
  | create
  | update
  | delete
deriving DecidableEq

/-- Outcome of one handler invocation: a returned output, a replacement
request (replace is a non-local exit per the engine contract), the destroy
sentinel, or a thrown error. -/
inductive Outcome (α : Type) where
  | ok (value : α)
  | replaced (force : Bool)
  | destroyed
  | failed (e : JsError)
deriving DecidableEq

/-- Ambient scope data read by the handlers: the adopt default, the
local-mode flag, and the app and stage names used for physical names. -/
structure ScopeCtx where
  adopt : Bool
  localMode : Bool
  app : String
  stage : String
deriving DecidableEq

/-- Modelled from the spec: createPhysicalName of Scope.  The scope source
file is not under src, so the derivation is taken from the spec text:
deterministic derivation of app-stage-logicalId joined by the separator,
truncated to satisfy maxLength when one is given. -/
def createPhysicalName (app stage logicalId sep : String) (maxLength : Option Nat) : String :=
  let base := app ++ sep ++ stage ++ sep ++ logicalId
  match maxLength with
  | some n => strTake base n
  | none => base

/-! ## AiSearch handler (ai-search.ts) -/

/-- An R2 bucket reference inside an r2 source config: either an R2Bucket
resource (carrying its name and dev.remote flag) or a plain bucket name. -/
inductive BucketOrName where
  | res (name : String) (devRemote : Bool)
  | nm (name : String)
deriving DecidableEq

/-- The source union accepted by AiSearch: a bucket resource passed directly,
an r2 source config, or a web-crawler source config.  Jurisdiction, path
filters and crawler options are configuration pass-through and are not
modelled; only the fields the handler branches on are kept. -/
inductive AiSearchSource where
  | bucketRes (name : String) (devRemote : Bool)
  | r2 (bucket : BucketOrName)
  | webCrawler (domain : String)
deriving DecidableEq

/-- The token part of AiSearchProps: an explicit tokenId, an AiSearchToken
resource (only its tokenId is read), or neither, in which case a child token
resource is created. -/
inductive AiTokenProp where
  | tokenId (tid : String)
  | token (tid : String)
  | auto
deriving DecidableEq

/-- Declared AiSearch properties, restricted to the fields that drive
control flow; the remaining BaseAiSearchProps fields are write-only
configuration copied into the payload. -/
structure AiSearchProps where
  name : Option String
  source : AiSearchSource
  tokenProp : AiTokenProp
  indexOnCreate : Option Bool
  delete : Option Bool
  adopt : Option Bool
deriving DecidableEq

/-- Prior AiSearch output record.  Modern records carry type and source;
records written by the development version carry sourceType, sourceBucket
and sourceDomain instead, hence the optional fields. -/
structure AiSearchOutput where
  id : String
  vectorizeName : String
  type : Option String
  source : Option String
  sourceType : Option String
  sourceBucket : Option String
  sourceDomain : Option String
deriving DecidableEq

/-- The fields of the create/update payload the handler reads again later:
id (the instance name), source (bucket name or domain) and type. -/
structure AiSearchPayload where
  id : String
  source : String
  type : String
deriving DecidableEq

/-- Remote calls issued by the AiSearch handler.  runAiSearchJob condenses
the job creation and polling loop into one call. -/
inductive ACall where
  | getBucket (name : String)
  | domainPost (domain : String)
  | createTokenChild
  | createInstance (name : String)
  | getInstance (name : String)
  | updateInstance (instId : String)
  | deleteIndex (vectorizeName : String)
  | deleteInstance (instId : String)
  | runJob (instId : String)
deriving DecidableEq

/-- Provider oracle for the AiSearch handler: the response each remote
endpoint would give during this apply. -/
structure AiSearchProvider where
  getBucketRes : String → Except JsError Unit
  domainValid : Bool
  createTokenRes : Except JsError String
  createInstanceRes : Except JsError AiInstance
  getInstanceRes : Except JsError AiInstance
  updateInstanceRes : String → Except JsError AiInstance
  runJobRes : Except JsError Unit
  deleteIndexRes : Except JsError Unit
  deleteInstanceRes : Except JsError Unit

/-- Name of a BucketOrName. -/
def bucketNameOf : BucketOrName → String
  | .res n _ => n
  | .nm n => n

/-- Embeds validateBucketSource of the AiSearch handler: a bucket resource
that runs locally without dev.remote is rejected before any call, otherwise
getBucket is called and a failure is wrapped into a validation error. -/
def validateBucketSource (scopeLocal : Bool) (pv : AiSearchProvider) :
    BucketOrName → List ACall × Except JsError Unit
  | .nm name =>
    match pv.getBucketRes name with
    | .ok _ => ([.getBucket name], .ok ())
    | .error _ => ([.getBucket name], .error (.generic ("Failed to validate R2 bucket " ++ name)))
  | .res name devRemote =>
    if scopeLocal && !devRemote then
      ([], .error (.generic "AI Search depends on an R2Bucket that is running locally"))
    else
      match pv.getBucketRes name with
      | .ok _ => ([.getBucket name], .ok ())
      | .error _ => ([.getBucket name], .error (.generic ("Failed to validate R2 bucket " ++ name)))

/-- Embeds validateWebCrawlerSourceDomain (ai-search.ts): reject a domain
containing :// or /, then validate the domain through the domains endpoint. -/
def validateWebCrawlerSourceDomain (pv : AiSearchProvider) (domain : String) :
    List ACall × Except JsError Unit :=
  if strContainsStr domain "://" then
    ([], .error (.generic ("Invalid domain format, not a URL expected: " ++ domain)))
  else if strContainsStr domain "/" then
    ([], .error (.generic ("Invalid domain format, no paths expected: " ++ domain)))
  else if pv.domainValid then ([.domainPost domain], .ok ())
  else ([.domainPost domain], .error (.generic ("Failed to validate domain " ++ domain)))

/-- Embeds normalizeSource of the AiSearch handler: validates the source and
yields the payload type and source key (bucket name or domain). -/
def normalizeSource (scopeLocal : Bool) (pv : AiSearchProvider) :
    AiSearchSource → List ACall × Except JsError (String × String)
  | .bucketRes nm devRemote =>
    match validateBucketSource scopeLocal pv (.res nm devRemote) with
    | (c, .ok _) => (c, .ok ("r2", nm))
    | (c, .error e) => (c, .error e)
  | .r2 b =>
    match validateBucketSource scopeLocal pv b with
    | (c, .ok _) => (c, .ok ("r2", bucketNameOf b))
    | (c, .error e) => (c, .error e)
  | .webCrawler dom =>
    match validateWebCrawlerSourceDomain pv dom with
    | (c, .ok _) => (c, .ok ("web-crawler", dom))
    | (c, .error e) => (c, .error e)

/-- Embeds normalizeTokenId of the AiSearch handler: validate an explicit
or resource token id against the UUID shape, else create a child
AiSearchToken resource. -/
def normalizeTokenId (pv : AiSearchProvider) :
    AiTokenProp → List ACall × Except JsError String
  | .tokenId tid =>
    if isUuid tid then ([], .ok tid)
    else ([], .error (.generic ("Invalid token ID: " ++ tid)))
  | .token tid =>
    if isUuid tid then ([], .ok tid)
    else ([], .error (.generic ("Invalid token ID: " ++ tid)))
  | .auto =>
    match pv.createTokenRes with
    | .ok tid => ([.createTokenChild], .ok tid)
    | .error e => ([.createTokenChild], .error e)

/-- Embeds the isAlreadyExistsError test of the AiSearch create branch: a
CloudflareApiError with status 400 whose errorData contains code 7022. -/
def aiSearchIsAlreadyExists (e : JsError) : Bool :=
  isCloudflareApiErrorStatus e 400 && isCloudflareApiErrorCode e 7022

/-- Embeds the resolution of the instance name: the declared name if
present, else createPhysicalName with separator "-" and maxLength 32. -/
def aiSearchResolvedName (app stage idStr : String) (props : AiSearchProps) : String :=
  props.name.getD (createPhysicalName app stage idStr "-" (some 32))

/-- Embeds the try/catch around createAiSearchInstance: on an already-exists
error with adopt enabled, the existing instance is fetched by name and then
updated with the declared payload; otherwise the error is rethrown. -/
def aiSearchCreateWithAdopt (pv : AiSearchProvider) (adopt : Bool) (name : String) :
    List ACall × Except JsError AiInstance :=
  match pv.createInstanceRes with
  | .ok inst => ([.createInstance name], .ok inst)
  | .error e =>
    if aiSearchIsAlreadyExists e && adopt then
      match pv.getInstanceRes with
      | .error ge => ([.createInstance name, .getInstance name], .error ge)
      | .ok found =>
        match pv.updateInstanceRes found.id with
        | .ok inst =>
          ([.createInstance name, .getInstance name, .updateInstance found.id], .ok inst)
        | .error ue =>
          ([.createInstance name, .getInstance name, .updateInstance found.id], .error ue)
    else ([.createInstance name], .error e)

/-- Embeds the create branch of the AiSearch handler including the
indexOnCreate job run. -/
def aiSearchCreateFlow (pv : AiSearchProvider) (adopt : Bool) (name : String)
    (indexOnCreate : Option Bool) : List ACall × Outcome AiInstance :=
  match aiSearchCreateWithAdopt pv adopt name with
  | (calls, .error e) => (calls, .failed e)
  | (calls, .ok inst) =>
    if indexOnCreate ≠ some false then
      match pv.runJobRes with
      | .ok _ => (calls ++ [.runJob inst.id], .ok inst)
      | .error e => (calls ++ [.runJob inst.id], .failed e)
    else (calls, .ok inst)

/-- Embeds the modern replacement predicate of the AiSearch update branch:
the prior output has a source field and the payload type or source differs. -/
def aiSearchReplace (payload : AiSearchPayload) (o : AiSearchOutput) : Bool :=
  o.source.isSome && (some payload.type != o.type || some payload.source != o.source)

/-- Embeds the legacy replacement predicate of the AiSearch update branch,
over records written by the development version of the resource. -/
def aiSearchReplaceLegacy (payload : AiSearchPayload) (o : AiSearchOutput) : Bool :=
  o.sourceType.isSome &&
    (some payload.type != o.sourceType ||
     (payload.type == "r2" && o.sourceBucket.isSome && some payload.source != o.sourceBucket) ||
     (payload.type == "web-crawler" && o.sourceDomain.isSome &&
       some payload.source != o.sourceDomain))

/-- Embeds the update branch of the AiSearch handler once the payload is
built: replace when an immutable field changed, else update in place. -/
def aiSearchUpdateStage (pv : AiSearchProvider) (payload : AiSearchPayload)
    (o : AiSearchOutput) : List ACall × Outcome AiInstance :=
  if aiSearchReplace payload o || aiSearchReplaceLegacy payload o then
    ([], .replaced true)
  else
    match pv.updateInstanceRes o.id with
    | .ok inst => ([.updateInstance o.id], .ok inst)
    | .error e => ([.updateInstance o.id], .failed e)

/-- Embeds the AiSearch handler body.  The Promise.all of normalizeSource
and normalizeTokenId is sequentialised in evaluation order: the source is
normalized first, then the token id is resolved. -/
def aiSearchApply (sc : ScopeCtx) (pv : AiSearchProvider) (idStr : String)
    (props : AiSearchProps) (phase : Phase) (output : Option AiSearchOutput) :
    List ACall × Outcome AiInstance :=
  let adopt := props.adopt.getD sc.adopt
  match phase with
  | .delete =>
    match output with
    | some o =>
      if props.delete ≠ some false ∧ o.id ≠ "" then
        match pv.deleteIndexRes with
        | .error e => ([.deleteIndex o.vectorizeName], .failed e)
        | .ok _ =>
          match deleteAiSearchInstance pv.deleteInstanceRes with
          | .ok _ => ([.deleteIndex o.vectorizeName, .deleteInstance o.id], .destroyed)
          | .error e => ([.deleteIndex o.vectorizeName, .deleteInstance o.id], .failed e)
      else ([], .destroyed)
    | none => ([], .destroyed)
  | _ =>
    let name := aiSearchResolvedName sc.app sc.stage idStr props
    if name.data.length < 1 ∨ name.data.length > 32 then
      ([], .failed (.generic "AI Search instance name must be 1-32 characters"))
    else
      match normalizeSource sc.localMode pv props.source with
      | (c1, .error e) => (c1, .failed e)
      | (c1, .ok (ty, srcKey)) =>
        match normalizeTokenId pv props.tokenProp with
        | (c2, .error e) => (c1 ++ c2, .failed e)
        | (c2, .ok _) =>
          let payload : AiSearchPayload := ⟨name, srcKey, ty⟩
          match phase, output with
          | .update, some o =>
            if o.id ≠ "" then
              match aiSearchUpdateStage pv payload o with
              | (c3, r) => (c1 ++ c2 ++ c3, r)
            else
              match aiSearchCreateFlow pv adopt name props.indexOnCreate with
              | (c3, r) => (c1 ++ c2 ++ c3, r)
          | _, _ =>
            match aiSearchCreateFlow pv adopt name props.indexOnCreate with
            | (c3, r) => (c1 ++ c2 ++ c3, r)

/-! ## AiSearchToken handler (ai-search-token.ts) -/

/-- Declared AiSearchToken properties. -/
structure TokenProps where
  name : Option String
  adopt : Option Bool
  delete : Option Bool
deriving DecidableEq

/-- Stored AiSearchToken output (the fields the handler reads and the claim
compares). -/
structure TokenOutput where
  tokenId : String
  accountTokenId : String
  name : String
  enabled : Bool
deriving DecidableEq

/-- A row of the AI Search tokens listing / create response. -/
structure TokenRow where
  id : String
  name : String
  enabled : Bool
deriving DecidableEq

/-- Remote calls issued by the AiSearchToken handler.  The AccountApiToken
child resource is a remote create in its own right. -/
inductive TCall where
  | createAccountToken (name : String)
  | createToken (name : String)
  | listTokens
  | deleteToken (tokenId : String)
deriving DecidableEq

/-- Provider oracle for the AiSearchToken handler.  createAccountTokenRes
yields the account token id and its optional secret value. -/
structure TokenProvider where
  createAccountTokenRes : Except JsError (String × Option String)
  createTokenRes : Except JsError TokenRow
  listTokensRes : Except JsError (List TokenRow)
  deleteTokenRes : Except JsError Unit

/-- Embeds the create path of the AiSearchToken handler: create the account
API token, require its value, register the token, and on any Cloudflare API
error with the adopt property set, look the token up by name in the listing
and return it unchanged. -/
def aiSearchTokenCreateFlow (pv : TokenProvider) (props : TokenProps)
    (tokenName : String) : List TCall × Outcome TokenOutput :=
  match pv.createAccountTokenRes with
  | .error e => ([.createAccountToken tokenName], .failed e)
  | .ok (acctId, value) =>
    match value with
    | none =>
      ([.createAccountToken tokenName],
       .failed (.generic "Failed to create account API token for AI Search - no token value returned"))
    | some _ =>
      match pv.createTokenRes with
      | .ok row =>
        ([.createAccountToken tokenName, .createToken tokenName],
         .ok ⟨row.id, acctId, row.name, row.enabled⟩)
      | .error e =>
        if isCloudflareApiErrorAny e && props.adopt == some true then
          match pv.listTokensRes with
          | .error le =>
            ([.createAccountToken tokenName, .createToken tokenName, .listTokens], .failed le)
          | .ok rows =>
            match rows.find? (fun t => t.name == tokenName) with
            | some ex =>
              ([.createAccountToken tokenName, .createToken tokenName, .listTokens],
               .ok ⟨ex.id, acctId, ex.name, ex.enabled⟩)
            | none =>
              ([.createAccountToken tokenName, .createToken tokenName, .listTokens], .failed e)
        else ([.createAccountToken tokenName, .createToken tokenName], .failed e)

/-- Embeds the AiSearchToken handler body. -/
def aiSearchTokenApply (sc : ScopeCtx) (pv : TokenProvider) (idStr : String)
    (props : TokenProps) (phase : Phase) (output : Option TokenOutput) :
    List TCall × Outcome TokenOutput :=
  let tokenName := props.name.getD (createPhysicalName sc.app sc.stage idStr "-" none)
  match phase with
  | .delete =>
    match output with
    | some o =>
      if o.tokenId ≠ "" ∧ props.delete ≠ some false then
        match deleteAiSearchToken pv.deleteTokenRes with
        | .ok _ => ([.deleteToken o.tokenId], .destroyed)
        | .error e => ([.deleteToken o.tokenId], .failed e)
      else ([], .destroyed)
    | none => ([], .destroyed)
  | .update =>
    match output with
    | some o =>
      if o.tokenId ≠ "" then ([], .ok o)
      else aiSearchTokenCreateFlow pv props tokenName
    | none => aiSearchTokenCreateFlow pv props tokenName
  | .create => aiSearchTokenCreateFlow pv props tokenName

/-! ## D1Database handler -/

/-- A clone source reference: by id (covers D1Database objects, which carry
an id) or by name. -/
inductive D1CloneRef where
  | byId (dbId : String)
  | byName (nm : String)
deriving DecidableEq

/-- Declared D1 properties (the fields the handler branches on; migration
and import file lists are abstracted to their lengths). -/
structure D1Props where
  name : Option String
  primaryLocationHint : Option String
  readReplicationMode : Option String
  delete : Option Bool
  adopt : Option Bool
  clone : Option D1CloneRef
  jurisdiction : Option String
  migrationsCount : Nat
  importsCount : Nat
  devRemote : Bool
deriving DecidableEq

/-- Stored D1 output record (the fields the handler reads). -/
structure D1Output where
  id : String
  name : String
  primaryLocationHint : Option String
  jurisdiction : Option String
  devId : Option String
deriving DecidableEq

/-- Remote and local calls issued by the D1 handler. -/
inductive DCall where
  | deleteMiniflare (devId : String)
  | deleteDb (dbId : String)
  | createDb (name : String)
  | updateReadReplication (dbId : String)
  | listDbs (name : String)
  | getDb (dbId : String)
  | cloneDb (sourceId targetId : String)
  | applyMigrations (dbId : String)
  | importFiles (dbId : String)
  | applyLocalMigrations (devId : String)
deriving DecidableEq

/-- Provider oracle for the D1 handler. -/
structure D1Provider where
  createRes : Except JsError D1Row
  listRes : Except JsError (List D1Row)
  getRes : String → Except JsError D1Row
  updateReadReplicationRes : String → Except JsError D1Row
  deleteRes : Except JsError Unit
  cloneRes : Except JsError Unit
  migrationsRes : Except JsError Unit
  importsRes : Except JsError Unit
  localMigrationsRes : Except JsError Unit

/-- Embeds the already-exists test of the D1 create catch clause: a
CloudflareApiError whose message contains the text already exists. -/
def d1IsAlreadyExists (e : JsError) : Bool :=
  match e with
  | .cfApi _ msg _ => strContainsStr msg "already exists"
  | .generic _ => false

/-- Embeds createDatabase: POST the create payload, require a uuid in the
response, and when a read-replication mode is declared immediately set it. -/
def createDatabase (pv : D1Provider) (databaseName : String) (props : D1Props) :
    List DCall × Except JsError D1Row :=
  match pv.createRes with
  | .error e => ([.createDb databaseName], .error e)
  | .ok row =>
    if row.uuid = "" then
      ([.createDb databaseName], .error (.generic "Missing UUID for created database"))
    else
      match props.readReplicationMode with
      | some _ =>
        match pv.updateReadReplicationRes row.uuid with
        | .ok row2 => ([.createDb databaseName, .updateReadReplication row.uuid], .ok row2)
        | .error e => ([.createDb databaseName, .updateReadReplication row.uuid], .error e)
      | none => ([.createDb databaseName], .ok row)

/-- Embeds cloneDb: resolve the source database id (directly, or by name via
a listing) and perform the clone. -/
def d1CloneDb (pv : D1Provider) (ref : D1CloneRef) (targetId : String) :
    List DCall × Except JsError Unit :=
  match ref with
  | .byId sid =>
    match pv.cloneRes with
    | .ok _ => ([.cloneDb sid targetId], .ok ())
    | .error e => ([.cloneDb sid targetId], .error e)
  | .byName nm =>
    match pv.listRes with
    | .error e => ([.listDbs nm], .error e)
    | .ok rows =>
      match rows.find? (fun r => r.name == nm) with
      | none => ([.listDbs nm], .error (.generic "Source database not found for cloning"))
      | some r =>
        match pv.cloneRes with
        | .ok _ => ([.listDbs nm, .cloneDb r.uuid targetId], .ok ())
        | .error e => ([.listDbs nm, .cloneDb r.uuid targetId], .error e)

/-- Embeds the try/catch of the D1 create branch: create (and clone), and on
an already-exists error with adopt enabled, find the database by name, fetch
it, and update the read-replication mode only when one is declared. -/
def d1CreateWithAdopt (pv : D1Provider) (adopt : Bool) (databaseName : String)
    (props : D1Props) : List DCall × Except JsError D1Row :=
  let tryRes :=
    match createDatabase pv databaseName props with
    | (c, .error e) => (c, Except.error e)
    | (c, .ok row) =>
      match props.clone with
      | some ref =>
        match d1CloneDb pv ref row.uuid with
        | (c2, .ok _) => (c ++ c2, Except.ok row)
        | (c2, .error e) => (c ++ c2, Except.error e)
      | none => (c, Except.ok row)
  match tryRes with
  | (c, .ok row) => (c, .ok row)
  | (c, .error e) =>
    if adopt && d1IsAlreadyExists e then
      match pv.listRes with
      | .error le => (c ++ [.listDbs databaseName], .error le)
      | .ok rows =>
        match rows.find? (fun r => r.name == databaseName) with
        | none =>
          (c ++ [.listDbs databaseName],
           .error (.generic "Failed to find existing database for adoption"))
        | some ex =>
          match pv.getRes ex.uuid with
          | .error ge => (c ++ [.listDbs databaseName, .getDb ex.uuid], .error ge)
          | .ok row =>
            match props.readReplicationMode with
            | some _ =>
              match pv.updateReadReplicationRes ex.uuid with
              | .ok row2 =>
                (c ++ [.listDbs databaseName, .getDb ex.uuid,
                       .updateReadReplication ex.uuid], .ok row2)
              | .error ue =>
                (c ++ [.listDbs databaseName, .getDb ex.uuid,
                       .updateReadReplication ex.uuid], .error ue)
            | none => (c ++ [.listDbs databaseName, .getDb ex.uuid], .ok row)
    else (c, .error e)

/-- Embeds the migrations and import tail of the D1 handler plus the output
construction. -/
def d1Finish (pv : D1Provider) (props : D1Props)
    (databaseName jurisdiction devId : String) (row : D1Row) (c : List DCall) :
    List DCall × Outcome D1Output :=
  let (c1, r1) :=
    if props.migrationsCount > 0 then
      match pv.migrationsRes with
      | .ok _ => ([DCall.applyMigrations row.uuid], Except.ok ())
      | .error e => ([DCall.applyMigrations row.uuid], Except.error e)
    else ([], Except.ok ())
  match r1 with
  | .error e => (c ++ c1, .failed e)
  | .ok _ =>
    if props.importsCount > 0 then
      match pv.importsRes with
      | .error e => (c ++ c1 ++ [.importFiles row.uuid], .failed e)
      | .ok _ =>
        (c ++ c1 ++ [.importFiles row.uuid],
         .ok ⟨row.uuid, databaseName, props.primaryLocationHint, some jurisdiction, some devId⟩)
    else
      (c ++ c1,
       .ok ⟨row.uuid, databaseName, props.primaryLocationHint, some jurisdiction, some devId⟩)

/-- Embeds the resolution of the database name: declared name, else the
prior output name, else createPhysicalName. -/
def d1ResolvedName (sc : ScopeCtx) (idStr : String) (props : D1Props)
    (output : Option D1Output) : String :=
  props.name.getD ((output.map (fun o => o.name)).getD
    (createPhysicalName sc.app sc.stage idStr "-" none))

/-- Embeds the D1 handler body.  The replace check on a changed name runs
first; the local branch returns a local record for every phase; the delete
branch guards on the delete property; the update branch rejects changed
primary-location hints and jurisdictions and otherwise updates the
read-replication mode. -/
def d1Apply (sc : ScopeCtx) (pv : D1Provider) (idStr : String) (props : D1Props)
    (phase : Phase) (output : Option D1Output) : List DCall × Outcome D1Output :=
  let databaseName := d1ResolvedName sc idStr props output
  let jurisdiction := props.jurisdiction.getD "default"
  if phase = .update ∧ (output.map (fun o => o.name)) ≠ some databaseName then
    ([], .replaced false)
  else
    let localMode := sc.localMode && !props.devRemote
    let devId :=
      match output with
      | some o => o.devId.getD o.id
      | none => databaseName
    if localMode then
      if props.migrationsCount > 0 ∨ props.importsCount > 0 then
        match pv.localMigrationsRes with
        | .error e => ([.applyLocalMigrations devId], .failed e)
        | .ok _ =>
          ([.applyLocalMigrations devId],
           .ok ⟨(output.map (fun o => o.id)).getD "", databaseName,
                props.primaryLocationHint, some jurisdiction, some devId⟩)
      else
        ([], .ok ⟨(output.map (fun o => o.id)).getD "", databaseName,
                  props.primaryLocationHint, some jurisdiction, some devId⟩)
    else
      match phase with
      | .delete =>
        match output with
        | some o =>
          let c0 := match o.devId with
            | some d => [DCall.deleteMiniflare d]
            | none => []
          if props.delete ≠ some false ∧ o.id ≠ "" then
            match deleteDatabase pv.deleteRes with
            | .ok _ => (c0 ++ [.deleteDb o.id], .destroyed)
            | .error e => (c0 ++ [.deleteDb o.id], .failed e)
          else (c0, .destroyed)
        | none => ([], .destroyed)
      | ph =>
        let adopt := props.adopt.getD sc.adopt
        if ph = .create ∨ (output.map (fun o => o.id)).getD "" = "" then
          match d1CreateWithAdopt pv adopt databaseName props with
          | (c, .error e) => (c, .failed e)
          | (c, .ok row) => d1Finish pv props databaseName jurisdiction devId row c
        else
          match output with
          | some o =>
            if props.primaryLocationHint.isSome ∧
               props.primaryLocationHint ≠ o.primaryLocationHint then
              ([], .failed (.generic "Cannot update primaryLocationHint after database creation."))
            else if jurisdiction ≠ (o.jurisdiction.getD "default") then
              ([], .failed (.generic "Cannot update jurisdiction after database creation."))
            else
              match pv.updateReadReplicationRes o.id with
              | .error e => ([.updateReadReplication o.id], .failed e)
              | .ok row =>
                d1Finish pv props databaseName jurisdiction devId row
                  [.updateReadReplication o.id]
          | none =>
            match d1CreateWithAdopt pv adopt databaseName props with
            | (c, .error e) => (c, .failed e)
            | (c, .ok row) => d1Finish pv props databaseName jurisdiction devId row c

/-! ## VpcService handler (vpc-service.ts) -/

/-- A value stored under a key of a network object: a string (tunnel ids,
addresses), a string array (resolver IPs), or a Tunnel resource, of which
only the tunnelId is read. -/
inductive HVal where
  | str (s : String)
  | arr (xs : List String)
  | tun (tunnelId : String)
deriving DecidableEq

/-- A JS network object modelled as an ordered key-value list, so that the
object spreads of normalizeNetwork keep their exact key names. -/
abbrev NetMap := List (String × HVal)

/-- Key lookup in a network object. -/
def netLookup (k : String) (m : NetMap) : Option HVal :=
  (m.find? (fun p => p.1 == k)).map (fun p => p.2)

/-- Key removal, as performed by a rest destructuring. -/
def netRemove (k : String) (m : NetMap) : NetMap :=
  m.filter (fun p => p.1 != k)

/-- The host union of VpcService.  Both the declared and the wire shape are
represented by this type; the key difference between the declared
resolverNetwork and the wire resolver_network lives inside the network
object itself, which is modelled key-precisely as a NetMap. -/
inductive VpcHost where
  | ipv4 (addr : String) (network : NetMap)
  | ipv6 (addr : String) (network : NetMap)
  | dual (v4 v6 : String) (network : NetMap)
  | hostname (nm : String) (resolverNetwork : NetMap)
deriving DecidableEq

/-- Embeds normalizeNetwork of the VpcService handler: the tunnelId key is
destructured away and re-emitted as tunnel_id, and the remaining keys are
spread unchanged; a tunnel resource is replaced by its tunnelId the same
way.  An absent tunnel value is modelled as the empty id. -/
def normalizeNetwork (network : NetMap) : NetMap :=
  match netLookup "tunnelId" network with
  | some v => ("tunnel_id", v) :: netRemove "tunnelId" network
  | none =>
    match netLookup "tunnel" network with
    | some (.tun tid) => ("tunnel_id", .str tid) :: netRemove "tunnel" network
    | _ => ("tunnel_id", .str "") :: netRemove "tunnel" network

/-- Embeds normalizeHost of the VpcService handler. -/
def normalizeHost : VpcHost → VpcHost
  | .hostname nm rn => .hostname nm (normalizeNetwork rn)
  | .ipv4 a n => .ipv4 a (normalizeNetwork n)
  | .ipv6 a n => .ipv6 a (normalizeNetwork n)
  | .dual a b n => .dual a b (normalizeNetwork n)

/-- Embeds the network part of formatOutput for IP hosts: a fresh object
holding only tunnelId read from the wire tunnel_id; a key whose value would
be undefined is omitted. -/
def formatNet (n : NetMap) : NetMap :=
  match netLookup "tunnel_id" n with
  | some v => [("tunnelId", v)]
  | none => []

/-- Embeds the host mapping of formatOutput of the VpcService handler: a
hostname host is rebuilt from the wire resolver_network keys tunnel_id and
resolver_ips; the other hosts keep their address keys and get a fresh
network object. -/
def formatOutputHost : VpcHost → VpcHost
  | .hostname nm rn =>
    let base := match netLookup "tunnel_id" rn with
      | some v => [("tunnelId", v)]
      | none => []
    let ips := match netLookup "resolver_ips" rn with
      | some v => [("resolverIps", v)]
      | none => []
    .hostname nm (base ++ ips)
  | .ipv4 a n => .ipv4 a (formatNet n)
  | .ipv6 a n => .ipv6 a (formatNet n)
  | .dual a b n => .dual a b (formatNet n)

/-- Round trip of a declared host through the wire shape: normalizeHost into
the create/update body, then the formatOutput host mapping back. -/
def vpcRoundTripHost (h : VpcHost) : VpcHost :=
  formatOutputHost (normalizeHost h)

/-- A connectivity service as returned by the API (the fields the handler
reads). -/
structure VpcWireService where
  serviceId : String
  name : String
  host : VpcHost
deriving DecidableEq

/-- Declared VpcService properties (the fields the handler branches on;
ports and protocol are pass-through). -/
structure VpcProps where
  name : Option String
  adopt : Option Bool
  host : VpcHost
deriving DecidableEq

/-- Stored VpcService output (the fields the handler reads). -/
structure VpcOutput where
  name : String
  serviceId : String
  host : VpcHost
deriving DecidableEq

/-- Remote calls issued by the VpcService handler. -/
inductive VCall where
  | createService
  | listServices
  | updateService (serviceId : String)
  | deleteService (serviceId : String)
deriving DecidableEq

/-- Provider oracle for the VpcService handler. -/
structure VpcProvider where
  createRes : Except JsError VpcWireService
  listRes : Except JsError (List VpcWireService)
  updateRes : String → Except JsError VpcWireService
  deleteRes : Except JsError Unit

/-- Embeds formatOutput of the VpcService handler (the fields the claims
compare). -/
def vpcFormatOutput (s : VpcWireService) : VpcOutput :=
  ⟨s.name, s.serviceId, formatOutputHost s.host⟩

/-- Embeds the VpcService handler body.  The delete branch has no delete
guard property; the create branch adopts on error code 5101 when the adopt
flag (property, else scope default) is set, by listing services, finding the
name and updating in place. -/
def vpcApply (sc : ScopeCtx) (pv : VpcProvider) (idStr : String) (props : VpcProps)
    (phase : Phase) (output : Option VpcOutput) : List VCall × Outcome VpcOutput :=
  match phase with
  | .delete =>
    match output with
    | some o =>
      if o.serviceId ≠ "" then
        match deleteService pv.deleteRes with
        | .ok _ => ([.deleteService o.serviceId], .destroyed)
        | .error e => ([.deleteService o.serviceId], .failed e)
      else ([], .destroyed)
    | none => ([], .destroyed)
  | .create =>
    let inputName := props.name.getD (createPhysicalName sc.app sc.stage idStr "-" none)
    let adopt := props.adopt.getD sc.adopt
    match pv.createRes with
    | .ok s => ([.createService], .ok (vpcFormatOutput s))
    | .error e =>
      if isCloudflareApiErrorCode e 5101 && adopt then
        match pv.listRes with
        | .error le => ([.createService, .listServices], .failed le)
        | .ok svcs =>
          match svcs.find? (fun s => s.name == inputName) with
          | some s =>
            match pv.updateRes s.serviceId with
            | .ok u =>
              ([.createService, .listServices, .updateService s.serviceId],
               .ok (vpcFormatOutput u))
            | .error ue =>
              ([.createService, .listServices, .updateService s.serviceId], .failed ue)
          | none => ([.createService, .listServices], .failed e)
      else ([.createService], .failed e)
  | .update =>
    match output with
    | some o =>
      match pv.updateRes o.serviceId with
      | .ok u => ([.updateService o.serviceId], .ok (vpcFormatOutput u))
      | .error e => ([.updateService o.serviceId], .failed e)
    | none => ([], .failed (.generic "missing prior output in update"))

/-! ## DefaultRole handler (the PlanetScale default-role file) -/

/-- Declared DefaultRole properties.  The database is given by name together
with a flag recording whether it was a Database resource (whose organization
is then available); the branch is already resolved to a name when given. -/
structure RoleProps where
  organization : Option String
  database : String
  databaseIsResource : Bool
  databaseOrg : Option String
  branch : Option String
  forceReset : Option Bool
deriving DecidableEq

/-- Stored DefaultRole output (the fields the update branch compares). -/
structure RoleOutput where
  database : String
  branch : String
  organization : String
deriving DecidableEq

/-- Result of the existence check of the create branch: a role was found,
none was found (404-class), or the check itself failed. -/
inductive RoleCheck where
  | found
  | notFound
  | checkError
deriving DecidableEq

/-- Remote calls issued by the DefaultRole handler. -/
inductive RCall where
  | getDefaultRole
  | waitForBranchReady
  | resetDefaultRole
deriving DecidableEq

/-- Provider oracle for the DefaultRole handler; resetRes covers the
waitForBranchReady poll and the reset call. -/
structure RoleProvider where
  check : RoleCheck
  resetRes : Except JsError Unit

/-- Embeds the organization resolution of the DefaultRole handler: the
declared organization, else the organization of a Database resource, else
the environment variable. -/
def roleResolveOrg (envOrg : Option String) (props : RoleProps) : Option String :=
  props.organization.orElse
    (fun _ => if props.databaseIsResource then props.databaseOrg else envOrg)

/-- Embeds the DefaultRole handler body. -/
def defaultRoleApply (envOrg : Option String) (pv : RoleProvider) (props : RoleProps)
    (phase : Phase) (output : Option RoleOutput) : List RCall × Outcome RoleOutput :=
  match roleResolveOrg envOrg props with
  | none => ([], .failed (.generic "PlanetScale organization is required."))
  | some organization =>
    let database := props.database
    let branch := props.branch.getD "main"
    match phase with
    | .create =>
      let (c0, check) :=
        if props.forceReset ≠ some true then
          match pv.check with
          | .found =>
            ([RCall.getDefaultRole],
             Except.error (JsError.generic "Default role already exists. Use forceReset to reset the role."))
          | .checkError =>
            ([RCall.getDefaultRole],
             Except.error (JsError.generic "Failed to check for default role."))
          | .notFound => ([RCall.getDefaultRole], Except.ok ())
        else ([], Except.ok ())
      match check with
      | .error e => (c0, .failed e)
      | .ok _ =>
        match pv.resetRes with
        | .ok _ =>
          (c0 ++ [.waitForBranchReady, .resetDefaultRole],
           .ok ⟨database, branch, organization⟩)
        | .error e => (c0 ++ [.waitForBranchReady, .resetDefaultRole], .failed e)
    | .update =>
      match output with
      | some o =>
        if database ≠ o.database ∨ branch ≠ o.branch then ([], .replaced false)
        else ([], .ok o)
      | none => ([], .failed (.generic "missing prior output in update"))
    | .delete =>
      match pv.resetRes with
      | .ok _ => ([.resetDefaultRole], .destroyed)
      | .error e => ([.resetDefaultRole], .failed e)

/-! ## AiCrawler helper (the crawler helper file) -/

/-- The web-crawler source configuration AiCrawler builds. -/
structure AiSearchWebCrawlerSource where
  type : String
  domain : String
  includePaths : Option (List String)
deriving DecidableEq

/-- Embeds parseUrl of the crawler helper: prepend https when no protocol is
present, then read hostname and pathname off the URL.  The WHATWG URL parse
is modelled for URLs without port, userinfo, query or fragment: the host is
everything up to the first slash after the protocol, lowercased, and the
pathname is the remainder, or the root path when there is none. -/
def parseUrl (url : String) : String × String :=
  let normalized := if strContainsStr url "://" then url else "https://" ++ url
  match listSplitFirst "://".data normalized.data with
  | none => (String.mk (lowerStr normalized.data), "/")
  | some (_, rest) =>
    match listSplitFirst "/".data rest with
    | none => (String.mk (lowerStr rest), "/")
    | some (dom, post) => (String.mk (lowerStr dom), String.mk ('/' :: post))

/-- Embeds pathToGlobPattern of the crawler helper: remove one leading
slash; a path reduced to nothing or to a single slash needs no filtering and
becomes a bare double star; otherwise the cleaned path is wrapped into a
match-anywhere glob. -/
def pathToGlobPattern (path : String) : String :=
  let cleanPath :=
    match path.data with
    | '/' :: rest => String.mk rest
    | l => String.mk l
  if cleanPath = "" ∨ cleanPath = "/" then "**"
  else "**/" ++ cleanPath ++ "**"

/-- Embeds AiCrawler: reject an empty URL list, reject URLs spanning more
than one hostname, and build a web-crawler source from the common hostname
and the glob patterns of the non-root paths. -/
def AiCrawler (urls : List String) : Except String AiSearchWebCrawlerSource :=
  if urls.isEmpty then .error "AiCrawler requires at least one URL"
  else
    let parsed := urls.map parseUrl
    let domains := (parsed.map Prod.fst).eraseDups
    if domains.length > 1 then
      .error ("All URLs must be from the same domain. Found: " ++
        String.intercalate ", " domains)
    else
      let domain := ((parsed.head?).map Prod.fst).getD ""
      let paths := (parsed.map Prod.snd).filter (fun p => p ≠ "" && p ≠ "/")
      let includePaths :=
        if paths.length > 0 then some (paths.map pathToGlobPattern) else none
      .ok ⟨"web-crawler", domain, includePaths⟩

/-! ## Theorems -/

/-- C4: for every provider delete helper (deleteAiSearchInstance,
deleteAiSearchToken, deleteService, deleteDatabase), a provider error whose
HTTP status is 404 is swallowed and the helper returns normally, while any
other error (a Cloudflare API error with a different status, or a
non-Cloudflare error) is rethrown; the read and update helpers
(getAiSearchInstance, updateAiSearchInstance, getDatabase,
updateReadReplicationMode, getService, updateService, getAiSearchToken)
never swallow any error and let it propagate. -/
theorem C4_delete_swallows_404_only (msg : String) (codes : List CloudflareErrorItem) :
    (deleteAiSearchInstance (.error (.cfApi 404 msg codes)) = .ok ()
      ∧ deleteAiSearchToken (.error (.cfApi 404 msg codes)) = .ok ()
      ∧ deleteService (.error (.cfApi 404 msg codes)) = .ok ()
      ∧ deleteDatabase (.error (.cfApi 404 msg codes)) = .ok ())
    ∧ (∀ status, status ≠ 404 →
        deleteAiSearchInstance (.error (.cfApi status msg codes)) = .error (.cfApi status msg codes)
        ∧ deleteAiSearchToken (.error (.cfApi status msg codes)) = .error (.cfApi status msg codes)
        ∧ deleteService (.error (.cfApi status msg codes)) = .error (.cfApi status msg codes)
        ∧ deleteDatabase (.error (.cfApi status msg codes)) = .error (.cfApi status msg codes))
    ∧ (deleteAiSearchInstance (.error (.generic msg)) = .error (.generic msg)
      ∧ deleteAiSearchToken (.error (.generic msg)) = .error (.generic msg)
      ∧ deleteService (.error (.generic msg)) = .error (.generic msg)
      ∧ deleteDatabase (.error (.generic msg)) = .error (.generic msg))
    ∧ (∀ e, getAiSearchInstance (.error e) = .error e
        ∧ updateAiSearchInstance (.error e) = .error e
        ∧ getDatabase (.error e) = .error e
        ∧ updateReadReplicationMode (.error e) = .error e
        ∧ getService (.error e) = .error e
        ∧ updateService (.error e) = .error e
        ∧ getAiSearchToken (.error e) = .error e) := by
  refine ⟨⟨rfl, rfl, rfl, rfl⟩, ?_, ⟨rfl, rfl, rfl, rfl⟩, ?_⟩
  · intro status h
    simp [deleteAiSearchInstance, deleteAiSearchToken, deleteService, deleteDatabase,
      isCloudflareApiErrorStatus, h]
  · intro e
    exact ⟨rfl, rfl, rfl, rfl, rfl, rfl, rfl⟩

/-- C4 witness: the helpers evaluated at a 404 error and a 500 error. -/
theorem C4_witness :
    deleteAiSearchInstance (.error (.cfApi 404 "not found" [])) = .ok ()
    ∧ deleteService (.error (.cfApi 500 "boom" [])) = .error (.cfApi 500 "boom" []) := by
  have h := C4_delete_swallows_404_only "not found" []
  have h2 := C4_delete_swallows_404_only "boom" []
  exact ⟨h.1.1, ((h2.2.1) 500 (by decide)).2.2.1⟩

/-- C6 counterexample: DefaultRoleProps declares none of the fields name,
adopt, delete, so not every concrete resource type follows the convention. -/
theorem C6_counterexample :
    ¬ ("name" ∈ DefaultRolePropsFields)
    ∧ ¬ ("adopt" ∈ DefaultRolePropsFields)
    ∧ ¬ ("delete" ∈ DefaultRolePropsFields) := by decide

/-- C6 (amended): the AiSearch, AiSearchToken and D1Database props declare
all of name, adopt and delete; VpcServiceProps declares name and adopt but
no delete; DefaultRoleProps declares none of the three. -/
theorem C6_theorem :
    ("name" ∈ BaseAiSearchPropsFields ∧ "adopt" ∈ BaseAiSearchPropsFields
      ∧ "delete" ∈ BaseAiSearchPropsFields)
    ∧ ("name" ∈ AiSearchTokenPropsFields ∧ "adopt" ∈ AiSearchTokenPropsFields
      ∧ "delete" ∈ AiSearchTokenPropsFields)
    ∧ ("name" ∈ D1DatabasePropsFields ∧ "adopt" ∈ D1DatabasePropsFields
      ∧ "delete" ∈ D1DatabasePropsFields)
    ∧ ("name" ∈ VpcServicePropsFields ∧ "adopt" ∈ VpcServicePropsFields
      ∧ ¬ ("delete" ∈ VpcServicePropsFields)) := by decide

/-- C8: converting a VpcService host to the provider wire shape with
normalizeHost and back with the formatOutput host mapping is the identity
for IPv4, IPv6, dual-stack and hostname hosts given in tunnelId form without
resolver IPs, but a hostname host with resolverIps loses them: the
normalizeNetwork spread emits the key resolverIps instead of the wire field
resolver_ips, so the formatOutput read of resolver_ips finds nothing. -/
theorem C8_theorem :
    vpcRoundTripHost (.hostname "internal.example.com"
        [("tunnelId", HVal.str "t-123"), ("resolverIps", HVal.arr ["10.0.0.53"])])
      = .hostname "internal.example.com" [("tunnelId", HVal.str "t-123")]
    ∧ vpcRoundTripHost (.ipv4 "192.168.1.100" [("tunnelId", HVal.str "t-123")])
      = .ipv4 "192.168.1.100" [("tunnelId", HVal.str "t-123")]
    ∧ vpcRoundTripHost (.ipv6 "::1" [("tunnelId", HVal.str "t-123")])
      = .ipv6 "::1" [("tunnelId", HVal.str "t-123")]
    ∧ vpcRoundTripHost (.dual "192.168.1.100" "::1" [("tunnelId", HVal.str "t-123")])
      = .dual "192.168.1.100" "::1" [("tunnelId", HVal.str "t-123")]
    ∧ vpcRoundTripHost (.hostname "localhost" [("tunnelId", HVal.str "t-9")])
      = .hostname "localhost" [("tunnelId", HVal.str "t-9")]
    ∧ normalizeNetwork [("tunnelId", HVal.str "t-123"), ("resolverIps", HVal.arr ["10.0.0.53"])]
      = [("tunnel_id", HVal.str "t-123"), ("resolverIps", HVal.arr ["10.0.0.53"])] := by decide

/-- C9: in the update phase with a prior output containing a tokenId, the
AiSearchToken handler returns the prior output unchanged, performs no
provider call and creates no child resource. -/
theorem C9_theorem (sc : ScopeCtx) (pv : TokenProvider) (idStr : String)
    (props : TokenProps) (o : TokenOutput) (h : o.tokenId ≠ "") :
    aiSearchTokenApply sc pv idStr props .update (some o) = ([], .ok o) := by
  simp [aiSearchTokenApply, h]

/-- C9 witness: the update phase evaluated at a concrete stored token. -/
theorem C9_witness :
    aiSearchTokenApply ⟨false, false, "app", "dev"⟩
      ⟨.ok ("acct", some "v"), .error (.generic "unused"), .ok [], .ok ()⟩
      "token" ⟨some "tok", none, none⟩ .update
      (some ⟨"aaaaaaaa-bbbb-cccc-dddd-eeeeeeeeeeee", "acct", "tok", true⟩)
      = ([], .ok ⟨"aaaaaaaa-bbbb-cccc-dddd-eeeeeeeeeeee", "acct", "tok", true⟩) := by
  exact C9_theorem _ _ _ _ _ (by decide)

/-- C7: when a resource is declared without an explicit name, the remote
name is derived by createPhysicalName as app-stage-logicalId truncated to
the maxLength of the handler (32 for AiSearch, none for D1), so the
derivation is a pure function of app, stage and logical id and repeated
runs produce the same name.  The derivation is spec-modelled since the
scope source is not under src. -/
theorem C7_theorem (app stage idStr : String) (props : AiSearchProps)
    (dprops : D1Props) (sc : ScopeCtx) (h : props.name = none)
    (hd : dprops.name = none) :
    aiSearchResolvedName app stage idStr props
      = createPhysicalName app stage idStr "-" (some 32)
    ∧ (aiSearchResolvedName app stage idStr props).data.length ≤ 32
    ∧ createPhysicalName app stage idStr "-" (some 32)
      = strTake (app ++ "-" ++ stage ++ "-" ++ idStr) 32
    ∧ d1ResolvedName sc idStr dprops none
      = createPhysicalName sc.app sc.stage idStr "-" none := by
  refine ⟨?_, ?_, rfl, ?_⟩
  · simp [aiSearchResolvedName, h]
  · simp [aiSearchResolvedName, h, createPhysicalName, strTake]
  · simp [d1ResolvedName, hd]

/-- C7 witness: name derivation evaluated at a concrete app, stage and id. -/
theorem C7_witness :
    aiSearchResolvedName "myapp" "dev" "docs-search"
        ⟨none, .webCrawler "example.com", .auto, none, none, none⟩
      = createPhysicalName "myapp" "dev" "docs-search" "-" (some 32)
    ∧ (aiSearchResolvedName "myapp" "dev" "docs-search"
        ⟨none, .webCrawler "example.com", .auto, none, none, none⟩).data.length ≤ 32 := by
  have h := C7_theorem "myapp" "dev" "docs-search"
    ⟨none, .webCrawler "example.com", .auto, none, none, none⟩
    ⟨none, none, none, none, none, none, none, 0, 0, false⟩
    ⟨false, false, "myapp", "dev"⟩ rfl rfl
  exact ⟨h.1, h.2.1⟩

/-- C1 counterexample: AiSearchToken violates the uniform adoption protocol.
With the scope adopt default true and no resource-level adopt property, the
effective adopt flag in the sense of the claim is true and the create fails
with an already-exists class Cloudflare error, yet the handler rethrows the
error without querying for the existing token and without any update call,
because it consults only its own adopt property. -/
theorem C1_counterexample :
    aiSearchTokenApply ⟨true, false, "app", "dev"⟩
      ⟨.ok ("acct-1", some "secret-value"),
       .error (.cfApi 400 "ai search token already exists" [⟨7022⟩]),
       .ok [⟨"11111111-2222-3333-4444-555555555555", "tok", true⟩],
       .ok ()⟩
      "token" ⟨some "tok", none, none⟩ .create none
      = ([TCall.createAccountToken "tok", TCall.createToken "tok"],
         .failed (.cfApi 400 "ai search token already exists" [⟨7022⟩]))
    ∧ ((⟨some "tok", none, none⟩ : TokenProps).adopt.getD
        (⟨true, false, "app", "dev"⟩ : ScopeCtx).adopt) = true := by
  exact ⟨by decide, rfl⟩

/-- C1 (amended): AiSearch, VpcService and D1Database adopt on an
already-exists create failure when the effective flag props.adopt, else
scope.adopt, is true; AiSearch and VpcService then issue an update with the
declared properties and return its result, while D1Database fetches the
existing database and updates only the read-replication mode and only when
one is declared.  AiSearchToken adopts on any Cloudflare API error, only
when its own adopt property is set (the scope default is not consulted),
and returns the existing token without an update call.  In each handler,
when the adoption condition fails the create error propagates unchanged. -/
theorem C1_theorem :
    (∀ (pv : AiSearchProvider) (name : String) (e : JsError) (found : AiInstance),
      pv.createInstanceRes = .error e → aiSearchIsAlreadyExists e = true →
      pv.getInstanceRes = .ok found →
      (aiSearchCreateWithAdopt pv true name).1
        = [ACall.createInstance name, ACall.getInstance name, ACall.updateInstance found.id]
      ∧ (aiSearchCreateWithAdopt pv true name).2 = pv.updateInstanceRes found.id)
    ∧ (∀ (pv : AiSearchProvider) (name : String) (e : JsError),
      pv.createInstanceRes = .error e →
      aiSearchCreateWithAdopt pv false name = ([ACall.createInstance name], .error e))
    ∧ (∀ (pv : AiSearchProvider) (name : String) (e : JsError) (adopt : Bool),
      pv.createInstanceRes = .error e → aiSearchIsAlreadyExists e = false →
      aiSearchCreateWithAdopt pv adopt name = ([ACall.createInstance name], .error e))
    ∧ (∀ (sc : ScopeCtx) (pv : VpcProvider) (idStr : String) (props : VpcProps)
        (e : JsError) (svcs : List VpcWireService) (s u : VpcWireService),
      props.adopt.getD sc.adopt = true →
      pv.createRes = .error e → isCloudflareApiErrorCode e 5101 = true →
      pv.listRes = .ok svcs →
      svcs.find? (fun x =>
        x.name == props.name.getD (createPhysicalName sc.app sc.stage idStr "-" none))
        = some s →
      pv.updateRes s.serviceId = .ok u →
      vpcApply sc pv idStr props .create none
        = ([VCall.createService, VCall.listServices, VCall.updateService s.serviceId],
           .ok (vpcFormatOutput u)))
    ∧ (∀ (sc : ScopeCtx) (pv : VpcProvider) (idStr : String) (props : VpcProps) (e : JsError),
      props.adopt.getD sc.adopt = false → pv.createRes = .error e →
      vpcApply sc pv idStr props .create none = ([VCall.createService], .failed e))
    ∧ (∀ (pv : D1Provider) (name : String) (props : D1Props) (e : JsError)
        (rows : List D1Row) (ex row : D1Row),
      props.clone = none → props.readReplicationMode = none →
      pv.createRes = .error e → d1IsAlreadyExists e = true →
      pv.listRes = .ok rows → rows.find? (fun r => r.name == name) = some ex →
      pv.getRes ex.uuid = .ok row →
      d1CreateWithAdopt pv true name props
        = ([DCall.createDb name, DCall.listDbs name, DCall.getDb ex.uuid], .ok row))
    ∧ (∀ (pv : D1Provider) (name : String) (props : D1Props) (e : JsError)
        (rows : List D1Row) (ex row row2 : D1Row) (mode : String),
      props.clone = none → props.readReplicationMode = some mode →
      pv.createRes = .error e → d1IsAlreadyExists e = true →
      pv.listRes = .ok rows → rows.find? (fun r => r.name == name) = some ex →
      pv.getRes ex.uuid = .ok row → pv.updateReadReplicationRes ex.uuid = .ok row2 →
      d1CreateWithAdopt pv true name props
        = ([DCall.createDb name, DCall.listDbs name, DCall.getDb ex.uuid,
            DCall.updateReadReplication ex.uuid], .ok row2))
    ∧ (∀ (pv : D1Provider) (name : String) (props : D1Props) (e : JsError),
      props.clone = none → pv.createRes = .error e →
      d1CreateWithAdopt pv false name props = ([DCall.createDb name], .error e))
    ∧ (∀ (pv : TokenProvider) (props : TokenProps) (tokenName acctId v : String)
        (e : JsError) (rows : List TokenRow) (ex : TokenRow),
      pv.createAccountTokenRes = .ok (acctId, some v) →
      pv.createTokenRes = .error e → isCloudflareApiErrorAny e = true →
      props.adopt = some true →
      pv.listTokensRes = .ok rows →
      rows.find? (fun t => t.name == tokenName) = some ex →
      aiSearchTokenCreateFlow pv props tokenName
        = ([TCall.createAccountToken tokenName, TCall.createToken tokenName, TCall.listTokens],
           .ok ⟨ex.id, acctId, ex.name, ex.enabled⟩))
    ∧ (∀ (pv : TokenProvider) (props : TokenProps) (tokenName acctId v : String) (e : JsError),
      pv.createAccountTokenRes = .ok (acctId, some v) →
      pv.createTokenRes = .error e → props.adopt ≠ some true →
      aiSearchTokenCreateFlow pv props tokenName
        = ([TCall.createAccountToken tokenName, TCall.createToken tokenName], .failed e)) := by
  refine ⟨?_, ?_, ?_, ?_, ?_, ?_, ?_, ?_, ?_, ?_⟩
  · intro pv name e found h1 h2 h3
    simp only [aiSearchCreateWithAdopt, h1, h2, h3, Bool.true_and, if_true]
    cases h : pv.updateInstanceRes found.id <;> simp [h]
  · intro pv name e h1
    simp [aiSearchCreateWithAdopt, h1]
  · intro pv name e adopt h1 h2
    simp [aiSearchCreateWithAdopt, h1, h2]
  · intro sc pv idStr props e svcs s u h0 h1 h2 h3 h4 h5
    simp [vpcApply, h0, h1, h2, h3, h4, h5]
  · intro sc pv idStr props e h0 h1
    simp [vpcApply, h0, h1]
  · intro pv name props e rows ex row h0 hrr h1 h2 h3 h4 h5
    simp [d1CreateWithAdopt, createDatabase, h0, hrr, h1, h2, h3, h4, h5]
  · intro pv name props e rows ex row row2 mode h0 hrr h1 h2 h3 h4 h5 h6
    simp [d1CreateWithAdopt, createDatabase, h0, hrr, h1, h2, h3, h4, h5, h6]
  · intro pv name props e h0 h1
    simp [d1CreateWithAdopt, createDatabase, h0, h1]
  · intro pv props tokenName acctId v e rows ex h1 h2 h3 h4 h5 h6
    simp [aiSearchTokenCreateFlow, h1, h2, h3, h4, h5, h6]
  · intro pv props tokenName acctId v e h1 h2 h3
    have h4 : (props.adopt == some true) = false := by
      cases h : props.adopt with
      | none => rfl
      | some b => cases b <;> simp_all
    simp [aiSearchTokenCreateFlow, h1, h2, h4]

/-- C1 witness: the AiSearch adoption branch and the AiSearchToken adoption
branch evaluated at concrete providers. -/
theorem C1_witness :
    (aiSearchCreateWithAdopt
       ⟨fun _ => .ok (), true, .ok "t", .error (.cfApi 400 "exists" [⟨7022⟩]),
        .ok ⟨"found-id", "vec", "bkt", "r2"⟩, fun i => .ok ⟨i, "vec", "bkt", "r2"⟩,
        .ok (), .ok (), .ok ()⟩ true "docs").1
      = [ACall.createInstance "docs", ACall.getInstance "docs", ACall.updateInstance "found-id"]
    ∧ aiSearchTokenCreateFlow
        ⟨.ok ("acct-1", some "sv"), .error (.cfApi 409 "conflict" []),
         .ok [⟨"tok-id", "tok", true⟩], .ok ()⟩ ⟨some "tok", some true, none⟩ "tok"
      = ([TCall.createAccountToken "tok", TCall.createToken "tok", TCall.listTokens],
         .ok ⟨"tok-id", "acct-1", "tok", true⟩) := by
  have h := C1_theorem
  constructor
  · exact (h.1 ⟨fun _ => .ok (), true, .ok "t", .error (.cfApi 400 "exists" [⟨7022⟩]),
      .ok ⟨"found-id", "vec", "bkt", "r2"⟩, fun i => .ok ⟨i, "vec", "bkt", "r2"⟩,
      .ok (), .ok (), .ok ()⟩ "docs" (.cfApi 400 "exists" [⟨7022⟩])
      ⟨"found-id", "vec", "bkt", "r2"⟩ rfl (by decide) rfl).1
  · exact h.2.2.2.2.2.2.2.2.1
      ⟨.ok ("acct-1", some "sv"), .error (.cfApi 409 "conflict" []),
       .ok [⟨"tok-id", "tok", true⟩], .ok ()⟩
      ⟨some "tok", some true, none⟩ "tok" "acct-1" "sv" (.cfApi 409 "conflict" [])
      [⟨"tok-id", "tok", true⟩] ⟨"tok-id", "tok", true⟩ rfl rfl (by decide) rfl rfl
      (by decide)

/-- C2 counterexample: VpcServiceProps declares no delete property, and the
VpcService delete phase calls the provider delete whenever a service id is
stored, so the remote object cannot be abandoned. -/
theorem C2_counterexample :
    ¬ ("delete" ∈ VpcServicePropsFields)
    ∧ vpcApply ⟨false, false, "app", "dev"⟩
        ⟨.error (.generic "unused"), .ok [], fun _ => .error (.generic "unused"), .ok ()⟩
        "svc" ⟨none, none, .ipv4 "10.0.0.1" [("tunnelId", HVal.str "t-1")]⟩
        .delete
        (some ⟨"app-dev-svc", "svc-123", .ipv4 "10.0.0.1" [("tunnelId", HVal.str "t-1")]⟩)
      = ([VCall.deleteService "svc-123"], .destroyed) := by
  exact ⟨by decide, by decide⟩

/-- C2 (amended): AiSearch, AiSearchToken and D1Database declare a delete
property (default true) and their delete phase calls the provider delete
only when delete is not false and a prior remote id exists, returning the
destroy sentinel either way; VpcService has no delete property and always
calls the provider delete when a service id exists, and DefaultRole always
resets the remote role on delete. -/
theorem C2_theorem :
    ("delete" ∈ BaseAiSearchPropsFields ∧ "delete" ∈ AiSearchTokenPropsFields
      ∧ "delete" ∈ D1DatabasePropsFields)
    ∧ (∀ sc pv idStr (props : AiSearchProps) o, props.delete = some false →
        aiSearchApply sc pv idStr props .delete (some o) = ([], .destroyed))
    ∧ (∀ sc (pv : AiSearchProvider) idStr (props : AiSearchProps) (o : AiSearchOutput),
        props.delete ≠ some false → o.id ≠ "" →
        pv.deleteIndexRes = .ok () → pv.deleteInstanceRes = .ok () →
        aiSearchApply sc pv idStr props .delete (some o)
          = ([ACall.deleteIndex o.vectorizeName, ACall.deleteInstance o.id], .destroyed))
    ∧ (∀ sc pv idStr (props : TokenProps) o, props.delete = some false →
        aiSearchTokenApply sc pv idStr props .delete (some o) = ([], .destroyed))
    ∧ (∀ sc (pv : TokenProvider) idStr (props : TokenProps) (o : TokenOutput),
        props.delete ≠ some false → o.tokenId ≠ "" → pv.deleteTokenRes = .ok () →
        aiSearchTokenApply sc pv idStr props .delete (some o)
          = ([TCall.deleteToken o.tokenId], .destroyed))
    ∧ (∀ (sc : ScopeCtx) pv idStr (props : D1Props) (o : D1Output),
        sc.localMode = false → props.delete = some false → o.devId = none →
        d1Apply sc pv idStr props .delete (some o) = ([], .destroyed))
    ∧ (∀ (sc : ScopeCtx) (pv : D1Provider) idStr (props : D1Props) (o : D1Output),
        sc.localMode = false → props.delete ≠ some false → o.id ≠ "" → o.devId = none →
        pv.deleteRes = .ok () →
        d1Apply sc pv idStr props .delete (some o) = ([DCall.deleteDb o.id], .destroyed))
    ∧ (∀ sc (pv : VpcProvider) idStr (props : VpcProps) (o : VpcOutput),
        o.serviceId ≠ "" → pv.deleteRes = .ok () →
        vpcApply sc pv idStr props .delete (some o)
          = ([VCall.deleteService o.serviceId], .destroyed))
    ∧ (∀ envOrg (pv : RoleProvider) (props : RoleProps) (o : RoleOutput) org,
        roleResolveOrg envOrg props = some org → pv.resetRes = .ok () →
        defaultRoleApply envOrg pv props .delete (some o)
          = ([RCall.resetDefaultRole], .destroyed)) := by
  refine ⟨by decide, ?_, ?_, ?_, ?_, ?_, ?_, ?_, ?_⟩
  · intro sc pv idStr props o h
    simp [aiSearchApply, h]
  · intro sc pv idStr props o h1 h2 h3 h4
    simp [aiSearchApply, h1, h2, h3, h4, deleteAiSearchInstance]
  · intro sc pv idStr props o h
    simp [aiSearchTokenApply, h]
  · intro sc pv idStr props o h1 h2 h3
    simp [aiSearchTokenApply, h1, h2, h3, deleteAiSearchToken]
  · intro sc pv idStr props o hl h hdev
    simp [d1Apply, hl, h, hdev]
  · intro sc pv idStr props o hl h1 h2 hdev h3
    simp [d1Apply, hl, h1, h2, hdev, h3, deleteDatabase]
  · intro sc pv idStr props o h1 h2
    simp [vpcApply, h1, h2, deleteService]
  · intro envOrg pv props o org h1 h2
    simp [defaultRoleApply, h1, h2]

/-- C2 witness: the delete guard evaluated concretely: an abandoned AiSearch
record and an always-deleting VpcService record. -/
theorem C2_witness :
    aiSearchApply ⟨false, false, "app", "dev"⟩
      ⟨fun _ => .ok (), true, .ok "t", .error (.generic "unused"),
       .error (.generic "unused"), fun _ => .error (.generic "unused"),
       .ok (), .ok (), .ok ()⟩
      "rag" ⟨none, .webCrawler "example.com", .auto, none, some false, none⟩
      .delete (some ⟨"rag-1", "vec-1", some "r2", some "bkt", none, none, none⟩)
      = ([], .destroyed)
    ∧ vpcApply ⟨false, false, "app", "dev"⟩
        ⟨.error (.generic "unused"), .ok [], fun _ => .error (.generic "unused"), .ok ()⟩
        "svc2" ⟨none, none, .ipv6 "::1" [("tunnelId", HVal.str "t-2")]⟩
        .delete (some ⟨"n", "svc-9", .ipv6 "::1" [("tunnelId", HVal.str "t-2")]⟩)
      = ([VCall.deleteService "svc-9"], .destroyed) := by
  have h := C2_theorem
  constructor
  · exact h.2.1 ⟨false, false, "app", "dev"⟩
      ⟨fun _ => .ok (), true, .ok "t", .error (.generic "unused"),
       .error (.generic "unused"), fun _ => .error (.generic "unused"),
       .ok (), .ok (), .ok ()⟩
      "rag" ⟨none, .webCrawler "example.com", .auto, none, some false, none⟩
      ⟨"rag-1", "vec-1", some "r2", some "bkt", none, none, none⟩ rfl
  · exact h.2.2.2.2.2.2.2.1 ⟨false, false, "app", "dev"⟩
      ⟨.error (.generic "unused"), .ok [], fun _ => .error (.generic "unused"), .ok ()⟩
      "svc2" ⟨none, none, .ipv6 "::1" [("tunnelId", HVal.str "t-2")]⟩
      ⟨"n", "svc-9", .ipv6 "::1" [("tunnelId", HVal.str "t-2")]⟩ (by decide) rfl

/-- C3 counterexample: a changed primary-location hint on a D1 database whose
name is unchanged raises an error in the update phase instead of triggering
the replace signal, contradicting the claim that D1Database calls replace
when the primary-location hint changes. -/
theorem C3_counterexample :
    d1Apply ⟨false, false, "app", "dev"⟩
      ⟨.ok ⟨"uuid-1", "db"⟩, .ok [], fun _ => .ok ⟨"uuid-1", "db"⟩,
       fun _ => .ok ⟨"uuid-1", "db"⟩, .ok (), .ok (), .ok (), .ok (), .ok ()⟩
      "db" ⟨some "db", some "enam", none, none, none, none, none, 0, 0, false⟩
      .update (some ⟨"uuid-1", "db", some "wnam", some "default", none⟩)
      = ([], .failed (.generic "Cannot update primaryLocationHint after database creation.")) := by
  decide

/-- C3 (amended): AiSearch replaces in the update phase when the payload
type or source differs from the prior output, else updates in place;
D1Database replaces when the database name changes, but a changed
primary-location hint raises an error instead of replacing, and an
unchanged record is updated in place through the read-replication call;
DefaultRole replaces when the database or branch changes and otherwise
returns the prior output without any provider call. -/
theorem C3_theorem :
    (∀ (pv : AiSearchProvider) (payload : AiSearchPayload) (o : AiSearchOutput),
      (aiSearchReplace payload o || aiSearchReplaceLegacy payload o) = true →
      aiSearchUpdateStage pv payload o = ([], .replaced true))
    ∧ (∀ (pv : AiSearchProvider) (payload : AiSearchPayload) (o : AiSearchOutput)
        (inst : AiInstance),
      aiSearchReplace payload o = false → aiSearchReplaceLegacy payload o = false →
      pv.updateInstanceRes o.id = .ok inst →
      aiSearchUpdateStage pv payload o = ([ACall.updateInstance o.id], .ok inst))
    ∧ (∀ (payload : AiSearchPayload) (o : AiSearchOutput) (s : String),
      o.source = some s →
      (aiSearchReplace payload o = true ↔ (some payload.type ≠ o.type ∨ payload.source ≠ s)))
    ∧ (∀ (sc : ScopeCtx) (pv : D1Provider) (idStr : String) (props : D1Props) (o : D1Output),
      d1ResolvedName sc idStr props (some o) ≠ o.name →
      d1Apply sc pv idStr props .update (some o) = ([], .replaced false))
    ∧ (∀ (sc : ScopeCtx) (pv : D1Provider) (idStr : String) (props : D1Props) (o : D1Output),
      sc.localMode = false → d1ResolvedName sc idStr props (some o) = o.name →
      o.id ≠ "" → props.primaryLocationHint.isSome →
      props.primaryLocationHint ≠ o.primaryLocationHint →
      d1Apply sc pv idStr props .update (some o)
        = ([], .failed (.generic "Cannot update primaryLocationHint after database creation.")))
    ∧ (∀ (sc : ScopeCtx) (pv : D1Provider) (idStr : String) (props : D1Props)
        (o : D1Output) (row : D1Row),
      sc.localMode = false → d1ResolvedName sc idStr props (some o) = o.name →
      o.id ≠ "" → props.primaryLocationHint = none → props.jurisdiction = none →
      o.jurisdiction = some "default" → props.migrationsCount = 0 → props.importsCount = 0 →
      pv.updateReadReplicationRes o.id = .ok row →
      d1Apply sc pv idStr props .update (some o)
        = ([DCall.updateReadReplication o.id],
           .ok ⟨row.uuid, o.name, none, some "default", some (o.devId.getD o.id)⟩))
    ∧ (∀ (envOrg : Option String) (pv : RoleProvider) (props : RoleProps)
        (o : RoleOutput) (org : String),
      roleResolveOrg envOrg props = some org →
      (props.database ≠ o.database ∨ props.branch.getD "main" ≠ o.branch) →
      defaultRoleApply envOrg pv props .update (some o) = ([], .replaced false))
    ∧ (∀ (envOrg : Option String) (pv : RoleProvider) (props : RoleProps)
        (o : RoleOutput) (org : String),
      roleResolveOrg envOrg props = some org →
      props.database = o.database → props.branch.getD "main" = o.branch →
      defaultRoleApply envOrg pv props .update (some o) = ([], .ok o)) := by
  refine ⟨?_, ?_, ?_, ?_, ?_, ?_, ?_, ?_⟩
  · intro pv payload o h
    simp [aiSearchUpdateStage, h]
  · intro pv payload o inst h1 h2 h3
    simp [aiSearchUpdateStage, h1, h2, h3]
  · intro payload o s h
    simp [aiSearchReplace, h]
  · intro sc pv idStr props o h
    have h2 : o.name ≠ d1ResolvedName sc idStr props (some o) := fun hx => h hx.symm
    simp [d1Apply, h2]
  · intro sc pv idStr props o hl hn hid hhint hne
    simp [d1Apply, hl, hn, hid, hhint, hne]
  · intro sc pv idStr props o row hl hn hid hhint hjur hojur hm hi hupd
    simp [d1Apply, d1Finish, hl, hn, hid, hhint, hjur, hojur, hm, hi, hupd]
  · intro envOrg pv props o org h1 h2
    simp [defaultRoleApply, h1, h2]
  · intro envOrg pv props o org h1 h2 h3
    simp [defaultRoleApply, h1, h2, h3]

/-- C3 witness: a replace triggered by a changed AiSearch source and a
replace triggered by a changed D1 database name, evaluated concretely. -/
theorem C3_witness :
    aiSearchUpdateStage
      ⟨fun _ => .ok (), true, .ok "t", .error (.generic "unused"),
       .error (.generic "unused"), fun _ => .error (.generic "unused"),
       .ok (), .ok (), .ok ()⟩
      ⟨"rag", "new-bucket", "r2"⟩
      ⟨"rag", "vec", some "r2", some "old-bucket", none, none, none⟩
      = ([], .replaced true)
    ∧ d1Apply ⟨false, false, "app", "dev"⟩
        ⟨.ok ⟨"uuid-1", "db"⟩, .ok [], fun _ => .ok ⟨"uuid-1", "db"⟩,
         fun _ => .ok ⟨"uuid-1", "db"⟩, .ok (), .ok (), .ok (), .ok (), .ok ()⟩
        "db" ⟨some "new-name", none, none, none, none, none, none, 0, 0, false⟩
        .update (some ⟨"uuid-1", "old-name", none, some "default", none⟩)
      = ([], .replaced false) := by
  have h := C3_theorem
  constructor
  · exact h.1 ⟨fun _ => .ok (), true, .ok "t", .error (.generic "unused"),
      .error (.generic "unused"), fun _ => .error (.generic "unused"),
      .ok (), .ok (), .ok ()⟩
      ⟨"rag", "new-bucket", "r2"⟩
      ⟨"rag", "vec", some "r2", some "old-bucket", none, none, none⟩ (by decide)
  · exact h.2.2.2.1 ⟨false, false, "app", "dev"⟩
      ⟨.ok ⟨"uuid-1", "db"⟩, .ok [], fun _ => .ok ⟨"uuid-1", "db"⟩,
       fun _ => .ok ⟨"uuid-1", "db"⟩, .ok (), .ok (), .ok (), .ok (), .ok ()⟩
      "db" ⟨some "new-name", none, none, none, none, none, none, 0, 0, false⟩
      ⟨"uuid-1", "old-name", none, some "default", none⟩ (by decide)

/-- C5 counterexample: an AiSearch apply with a valid name, an r2 source
given by bucket name and an invalid token id raises the token validation
error, but only after the remote bucket validation call has been issued, so
the validation error is not raised before any remote provider call. -/
theorem C5_counterexample :
    aiSearchApply ⟨false, false, "app", "dev"⟩
      ⟨fun _ => .ok (), true, .ok "t", .error (.generic "unused"),
       .error (.generic "unused"), fun _ => .error (.generic "unused"),
       .ok (), .ok (), .ok ()⟩
      "search" ⟨some "docs", .r2 (.nm "bkt"), .tokenId "nope", none, none, none⟩
      .create none
      = ([ACall.getBucket "bkt"], .failed (.generic "Invalid token ID: nope"))
    ∧ ([ACall.getBucket "bkt"] ≠ ([] : List ACall)) := by
  exact ⟨by decide, by decide⟩

/-- C5 (amended): a name shorter than 1 or longer than 32 characters raises
a validation error before any provider call; a web-crawler domain
containing :// or a path separator raises a validation error before the
domain endpoint and the instance create are called; a token id that is not
a UUID raises a validation error before the instance create is called, but
the source normalization issued together with the token resolution may
already have made a remote call (such as the R2 bucket validation) when the
token error is raised; no failed validation is retried. -/
theorem C5_theorem :
    (∀ (sc : ScopeCtx) (pv : AiSearchProvider) (idStr : String) (props : AiSearchProps),
      ((aiSearchResolvedName sc.app sc.stage idStr props).data.length < 1
        ∨ (aiSearchResolvedName sc.app sc.stage idStr props).data.length > 32) →
      aiSearchApply sc pv idStr props .create none
        = ([], .failed (.generic "AI Search instance name must be 1-32 characters")))
    ∧ (∀ (sc : ScopeCtx) (pv : AiSearchProvider) (idStr : String) (props : AiSearchProps)
        (d : String),
      props.source = .webCrawler d → strContainsStr d "://" = true →
      ¬ ((aiSearchResolvedName sc.app sc.stage idStr props).data.length < 1
        ∨ (aiSearchResolvedName sc.app sc.stage idStr props).data.length > 32) →
      aiSearchApply sc pv idStr props .create none
        = ([], .failed (.generic ("Invalid domain format, not a URL expected: " ++ d))))
    ∧ (∀ (sc : ScopeCtx) (pv : AiSearchProvider) (idStr : String) (props : AiSearchProps)
        (d : String),
      props.source = .webCrawler d → strContainsStr d "://" = false →
      strContainsStr d "/" = true →
      ¬ ((aiSearchResolvedName sc.app sc.stage idStr props).data.length < 1
        ∨ (aiSearchResolvedName sc.app sc.stage idStr props).data.length > 32) →
      aiSearchApply sc pv idStr props .create none
        = ([], .failed (.generic ("Invalid domain format, no paths expected: " ++ d))))
    ∧ (∀ (sc : ScopeCtx) (pv : AiSearchProvider) (idStr : String) (props : AiSearchProps)
        (b t : String),
      props.source = .r2 (.nm b) → props.tokenProp = .tokenId t →
      isUuid t = false → pv.getBucketRes b = .ok () →
      ¬ ((aiSearchResolvedName sc.app sc.stage idStr props).data.length < 1
        ∨ (aiSearchResolvedName sc.app sc.stage idStr props).data.length > 32) →
      aiSearchApply sc pv idStr props .create none
        = ([ACall.getBucket b], .failed (.generic ("Invalid token ID: " ++ t)))) := by
  refine ⟨?_, ?_, ?_, ?_⟩
  · intro sc pv idStr props h
    simp only [aiSearchApply]
    rw [if_pos h]
  · intro sc pv idStr props d hs hd hn
    simp only [aiSearchApply]
    rw [if_neg hn]
    simp [normalizeSource, validateWebCrawlerSourceDomain, hs, hd]
  · intro sc pv idStr props d hs hd1 hd2 hn
    simp only [aiSearchApply]
    rw [if_neg hn]
    simp [normalizeSource, validateWebCrawlerSourceDomain, hs, hd1, hd2]
  · intro sc pv idStr props b t hs ht hu hb hn
    simp only [aiSearchApply]
    rw [if_neg hn]
    simp [normalizeSource, validateBucketSource, normalizeTokenId, hs, ht, hu, hb]

/-- C5 witness: the name-length validation and the domain-format validation
evaluated at concrete inputs where no remote call precedes the error. -/
theorem C5_witness :
    aiSearchApply ⟨false, false, "app", "dev"⟩
      ⟨fun _ => .ok (), true, .ok "t", .error (.generic "unused"),
       .error (.generic "unused"), fun _ => .error (.generic "unused"),
       .ok (), .ok (), .ok ()⟩
      "search" ⟨some "this-name-is-way-too-long-for-ai-search-instances",
        .webCrawler "example.com", .auto, none, none, none⟩ .create none
      = ([], .failed (.generic "AI Search instance name must be 1-32 characters"))
    ∧ aiSearchApply ⟨false, false, "app", "dev"⟩
        ⟨fun _ => .ok (), true, .ok "t", .error (.generic "unused"),
         .error (.generic "unused"), fun _ => .error (.generic "unused"),
         .ok (), .ok (), .ok ()⟩
        "search" ⟨some "docs", .webCrawler "https://example.com", .auto, none, none, none⟩
        .create none
      = ([], .failed (.generic "Invalid domain format, not a URL expected: https://example.com")) := by
  have h := C5_theorem
  constructor
  · exact h.1 ⟨false, false, "app", "dev"⟩
      ⟨fun _ => .ok (), true, .ok "t", .error (.generic "unused"),
       .error (.generic "unused"), fun _ => .error (.generic "unused"),
       .ok (), .ok (), .ok ()⟩
      "search" ⟨some "this-name-is-way-too-long-for-ai-search-instances",
        .webCrawler "example.com", .auto, none, none, none⟩ (by decide)
  · exact h.2.1 ⟨false, false, "app", "dev"⟩
      ⟨fun _ => .ok (), true, .ok "t", .error (.generic "unused"),
       .error (.generic "unused"), fun _ => .error (.generic "unused"),
       .ok (), .ok (), .ok ()⟩
      "search" ⟨some "docs", .webCrawler "https://example.com", .auto, none, none, none⟩
      "https://example.com" rfl (by decide) (by decide)

/-- Helper for C10: on a non-empty URL list whose parsed hostnames collapse
to at most one distinct value, AiCrawler returns the web-crawler source
built from the first hostname and the glob patterns of the non-root paths. -/
theorem aiCrawler_ok_of_single_domain (u : String) (rest : List String)
    (h : (((u :: rest).map parseUrl).map Prod.fst).eraseDups.length ≤ 1) :
    AiCrawler (u :: rest)
      = .ok ⟨"web-crawler", (parseUrl u).1,
          (let paths := (((u :: rest).map parseUrl).map Prod.snd).filter
              (fun p => p ≠ "" && p ≠ "/");
           if paths.length > 0 then some (paths.map pathToGlobPattern) else none)⟩ := by
  have h1 : ¬ ((((u :: rest).map parseUrl).map Prod.fst).eraseDups.length > 1) := by omega
  simp only [AiCrawler]
  rw [if_neg (by simp), if_neg h1]
  simp

/-- C10 counterexample: the URL example.com// has the non-root path //, yet
its glob pattern is the bare double star, not a pattern of the claimed
match-anywhere shape around the path. -/
theorem C10_counterexample :
    AiCrawler ["example.com//"] = .ok ⟨"web-crawler", "example.com", some ["**"]⟩
    ∧ ¬ ("//" = "" ∨ "//" = "/")
    ∧ ¬ ("**" = "**/" ++ "//" ++ "**")
    ∧ ¬ ("**" = "**/" ++ "/" ++ "**") := by
  exact ⟨by decide, by decide, by decide, by decide⟩

/-- C10 (amended): AiCrawler rejects an empty URL list and a list whose URLs
parse to more than one distinct hostname; on a non-empty single-hostname
list it returns a web-crawler source whose domain is the common hostname
with the protocol stripped, whose includePaths is absent exactly when every
parsed path is empty or the root path, and whose patterns wrap each
non-root path with one leading slash removed into a match-anywhere glob,
except that a path that reduces to a single slash yields the bare double
star. -/
theorem C10_theorem :
    AiCrawler [] = .error "AiCrawler requires at least one URL"
    ∧ (∀ urls : List String,
        (((urls.map parseUrl).map Prod.fst).eraseDups.length > 1) →
        (AiCrawler urls).isOk = false)
    ∧ (∀ (u : String) (rest : List String),
        ((((u :: rest).map parseUrl).map Prod.fst).eraseDups.length ≤ 1) →
        AiCrawler (u :: rest)
          = .ok ⟨"web-crawler", (parseUrl u).1,
              (let paths := (((u :: rest).map parseUrl).map Prod.snd).filter
                  (fun p => p ≠ "" && p ≠ "/");
               if paths.length > 0 then some (paths.map pathToGlobPattern) else none)⟩)
    ∧ (∀ (u : String) (rest : List String),
        ((((u :: rest).map parseUrl).map Prod.fst).eraseDups.length ≤ 1) →
        (AiCrawler (u :: rest) = .ok ⟨"web-crawler", (parseUrl u).1, none⟩
          ↔ ∀ p ∈ ((u :: rest).map parseUrl).map Prod.snd, p = "" ∨ p = "/")) := by
  refine ⟨rfl, ?_, ?_, ?_⟩
  · intro urls h
    match urls with
    | [] => exact absurd h (by decide)
    | u :: rest =>
      have h2 : ((parseUrl u).1 :: List.map (Prod.fst ∘ parseUrl) rest).eraseDups.length > 1 := by
        simpa using h
      simp only [AiCrawler]
      rw [if_neg (by simp)]
      simp only [List.map_cons, List.map_map]
      rw [if_pos h2]
      rfl
  · intro u rest h
    exact aiCrawler_ok_of_single_domain u rest h
  · intro u rest h
    rw [aiCrawler_ok_of_single_domain u rest h]
    simp only [Except.ok.injEq, AiSearchWebCrawlerSource.mk.injEq, true_and]
    constructor
    · intro hx p hp
      by_contra hc
      push_neg at hc
      have hne : (p ≠ "" && p ≠ "/") = true := by
        simp [hc.1, hc.2]
      have hmem : p ∈ (((u :: rest).map parseUrl).map Prod.snd).filter
          (fun q => q ≠ "" && q ≠ "/") := List.mem_filter.mpr ⟨hp, hne⟩
      have hlen : 0 < ((((u :: rest).map parseUrl).map Prod.snd).filter
          (fun q => q ≠ "" && q ≠ "/")).length :=
        List.length_pos.mpr (List.ne_nil_of_mem hmem)
      rw [if_pos hlen] at hx
      exact Option.noConfusion hx
    · intro hall
      have hnil : (((u :: rest).map parseUrl).map Prod.snd).filter
          (fun q => q ≠ "" && q ≠ "/") = [] := by
        rw [List.filter_eq_nil_iff]
        intro p hp
        rcases hall p hp with hc | hc <;> simp [hc]
      rw [hnil]
      simp

/-- C10 witness: AiCrawler evaluated at a two-URL single-hostname list. -/
theorem C10_witness :
    AiCrawler ["https://example.com/blog", "example.com/news"]
      = .ok ⟨"web-crawler", "example.com", some ["**/blog**", "**/news**"]⟩ := by
  have h := C10_theorem
  have hx := h.2.2.1 "https://example.com/blog" ["example.com/news"] (by decide)
  simpa using hx
